import Mathlib

/-
  Verification of the EvolvX Ranking & Progression Engine
  (shallow embedding of frontend/utils/rankingSystem.js).

  Modelling conventions:
  * JavaScript numbers that only ever hold integers (points, day counts,
    streaks) are modelled as `Int`; the single fractional quantity
    (`progressToNext`, and the intermediate `workoutsPerWeek`) is modelled
    as `ℚ`.
  * Calendar dates are modelled at day granularity as `Int` (a day number);
    the source normalises dates with `setHours(0,0,0,0)` before subtracting,
    so millisecond arithmetic is an exact multiple of 86 400 000 and
    `Math.floor` of the quotient is the exact day difference.
  * `Math.floor(x / n)` on integers is `Int.fdiv x n`.
  * `RANKS.DIAMOND.maxPoints = Infinity` is modelled as `none : Option Int`;
    `points <= Infinity` is always true.
  * `new Date()` ("today") is passed explicitly as a parameter.
  * JavaScript `Array.prototype.sort` sorts in place; the state of the
    caller's array after a call is modelled by the `...ArrayAfter`
    functions.
-/

namespace RankingSystem

/-- One entry of the `RANKS` table (rankingSystem.js lines 4-60).
`maxPoints = none` models `Infinity`. -/
structure Rank where
  name : String
  level : Nat
  color : String
  gradient : List String
  icon : String
  minPoints : Int
  maxPoints : Option Int
  title : String
  description : String
  deriving DecidableEq, Repr

/-- `RANKS.BRONZE`. -/
def BRONZE : Rank :=
  { name := "Bronze", level := 1, color := "#CD7F32"
    gradient := ["#CD7F32", "#B8860B"], icon := "medal"
    minPoints := 0, maxPoints := some 99
    title := "Fitness Newcomer", description := "Starting your fitness journey" }

/-- `RANKS.SILVER`. -/
def SILVER : Rank :=
  { name := "Silver", level := 2, color := "#C0C0C0"
    gradient := ["#C0C0C0", "#A8A8A8"], icon := "medal-outline"
    minPoints := 100, maxPoints := some 299
    title := "Dedicated Lifter", description := "Building consistent habits" }

/-- `RANKS.GOLD`. -/
def GOLD : Rank :=
  { name := "Gold", level := 3, color := "#FFD700"
    gradient := ["#FFD700", "#FFA500"], icon := "trophy"
    minPoints := 300, maxPoints := some 599
    title := "Fitness Expert", description := "Mastering your workouts" }

/-- `RANKS.PLATINUM`. -/
def PLATINUM : Rank :=
  { name := "Platinum", level := 4, color := "#E5E4E2"
    gradient := ["#E5E4E2", "#B8B8B8"], icon := "trophy-outline"
    minPoints := 600, maxPoints := some 999
    title := "Elite Athlete", description := "Peak performance achieved" }

/-- `RANKS.DIAMOND`; its `maxPoints` is `Infinity`. -/
def DIAMOND : Rank :=
  { name := "Diamond", level := 5, color := "#B9F2FF"
    gradient := ["#B9F2FF", "#87CEEB"], icon := "diamond-stone"
    minPoints := 1000, maxPoints := none
    title := "Legendary Champion", description := "Transcended mortal limits" }

/-- `Object.values(RANKS)`: the five tiers in declaration order. -/
def RANKS : List Rank := [BRONZE, SILVER, GOLD, PLATINUM, DIAMOND]

/-- The `userStats` argument of `calculateRankingPoints` (lines 64-72),
fields in the order they are destructured. -/
structure UserStats where
  totalWorkouts : Int
  currentStreak : Int
  longestStreak : Int
  totalExercises : Int
  workoutDays : Int
  personalRecords : Int
  consistencyScore : Int
  deriving DecidableEq, Repr

/-- `calculateRankingPoints` (lines 63-98).  The sum is an integer, so the
final `Math.floor` is the identity and only `Math.max(0, ·)` remains. -/
def calculateRankingPoints (userStats : UserStats) : Int :=
  let points : Int :=
    userStats.totalWorkouts * 2
      + userStats.currentStreak * 3
      + userStats.longestStreak * 1
      + Int.fdiv userStats.totalExercises 5
      + userStats.consistencyScore
      + userStats.personalRecords * 10
      + Int.fdiv userStats.workoutDays 7
  max 0 points

/-- `points <= rank.maxPoints`, where `maxPoints` may be `Infinity`. -/
def withinMax (points : Int) : Option Int → Bool
  | none => true
  | some m => decide (points ≤ m)

/-- The range test `points >= rank.minPoints && points <= rank.maxPoints`
used by lines 130, 149 and 167. -/
def rankContains (rank : Rank) (points : Int) : Bool :=
  decide (rank.minPoints ≤ points) && withinMax points rank.maxPoints

/-- `getProgressToNextRank` (lines 125-141). -/
def getProgressToNextRank (points : Int) : ℚ :=
  match RANKS.find? (fun rank => rankContains rank points) with
  | some rank =>
    match rank.maxPoints with
    | none => 100
    | some m =>
      let progress : ℚ :=
        (((points : ℚ) - (rank.minPoints : ℚ)) / ((m : ℚ) - (rank.minPoints : ℚ))) * 100
      min 100 (max 0 progress)
  | none => 0

/-- `getPointsToNextRank` (lines 144-159).  The fall-through returns
`RANKS.BRONZE.maxPoints + 1 - points`, i.e. `99 + 1 - points`. -/
def getPointsToNextRank (points : Int) : Int :=
  match RANKS.find? (fun rank => rankContains rank points) with
  | some rank =>
    match rank.maxPoints with
    | none => 0
    | some m => m + 1 - points
  | none => 99 + 1 - points

/-- The record returned by `getUserRank` (spread of the tier record plus
the three computed fields; presentation fields live inside `rank`). -/
structure RankResult where
  rank : Rank
  currentPoints : Int
  progressToNext : ℚ
  pointsToNext : Int
  deriving DecidableEq, Repr

/-- `getUserRank` (lines 101-122): scan the tiers from highest to lowest
and return the first whose `minPoints` the points reach; otherwise fall
back to Bronze. -/
def getUserRank (points : Int) : RankResult :=
  match RANKS.reverse.find? (fun rank => decide (rank.minPoints ≤ points)) with
  | some rank =>
    { rank := rank, currentPoints := points
      progressToNext := getProgressToNextRank points
      pointsToNext := getPointsToNextRank points }
  | none =>
    { rank := BRONZE, currentPoints := points
      progressToNext := getProgressToNextRank points
      pointsToNext := getPointsToNextRank points }

/-- An exercise entry; the engine reads only its (possibly absent) name. -/
structure ExerciseEntry where
  name : Option String
  deriving DecidableEq, Repr

/-- A workout record as the engine reads it: a calendar day number and an
optionally present exercises array. -/
structure Workout where
  workout_date : Int
  exercises : Option (List ExerciseEntry)
  deriving DecidableEq, Repr

/-- Insert into a descending list, keeping the inserted (earlier) element
in front of equal keys: stable descending insertion sort step. -/
def insertDescInt (x : Int) : List Int → List Int
  | [] => [x]
  | y :: ys => if y ≤ x then x :: y :: ys else y :: insertDescInt x ys

/-- Numeric descending sort, as `.sort((a, b) => b - a)` on a fresh array. -/
def sortDescInt (l : List Int) : List Int := l.foldr insertDescInt []

/-- Lines 240-244: collapse the workout dates to distinct days and sort
them descending (`[...new Set(...)].sort((a, b) => b - a)`). -/
def dedupDatesDesc (dates : List Int) : List Int := sortDescInt dates.dedup

/-- The current-streak loop (lines 250-261): while the next distinct day
is at distance 0 or 1 from the cursor, count it and move the cursor to one
day before it; stop at the first other day. -/
def currentStreakLoop : Int → List Int → Nat
  | _, [] => 0
  | checkDate, workoutDate :: rest =>
    let daysDiff := checkDate - workoutDate
    if daysDiff = 0 ∨ daysDiff = 1 then currentStreakLoop (workoutDate - 1) rest + 1
    else 0

/-- Ghost companion of `currentStreakLoop`: the days the loop counts, in
the order it counts them. -/
def matchedDays : Int → List Int → List Int
  | _, [] => []
  | checkDate, workoutDate :: rest =>
    if checkDate - workoutDate = 0 ∨ checkDate - workoutDate = 1 then
      workoutDate :: matchedDays (workoutDate - 1) rest
    else []

/-- The longest-streak loop (lines 264-280) over the descending distinct
days: a gap of exactly 1 extends the run, anything else resets it to 1;
the answer is the maximum run seen, folded once more after the loop. -/
def longestStreakLoop : Int → List Int → Nat → Nat → Nat
  | _, [], tempStreak, longest => max longest tempStreak
  | prevDate, currDate :: rest, tempStreak, longest =>
    if prevDate - currDate = 1 then longestStreakLoop currDate rest (tempStreak + 1) longest
    else longestStreakLoop currDate rest 1 (max longest tempStreak)

/-- The pair returned by `calculateStreaks`. -/
structure Streaks where
  currentStreak : Nat
  longestStreak : Nat
  deriving DecidableEq, Repr

/-- `calculateStreaks` (lines 230-283), with "today" explicit. -/
def calculateStreaks (workouts : List Workout) (today : Int) : Streaks :=
  if workouts = [] then { currentStreak := 0, longestStreak := 0 }
  else
    let workoutDates := dedupDatesDesc (workouts.map (fun w => w.workout_date))
    { currentStreak := currentStreakLoop today workoutDates
      longestStreak :=
        match workoutDates with
        | [] => 0
        | d :: ds => longestStreakLoop d ds 1 0 }

/-- Stable descending insertion step for workouts, keyed by date
(`.sort((a, b) => new Date(b.workout_date) - new Date(a.workout_date))`). -/
def insertWorkoutDesc (w : Workout) : List Workout → List Workout
  | [] => [w]
  | y :: ys =>
    if y.workout_date ≤ w.workout_date then w :: y :: ys else y :: insertWorkoutDesc w ys

/-- Stable descending sort of workouts by date. -/
def sortWorkoutsDesc (workouts : List Workout) : List Workout :=
  workouts.foldr insertWorkoutDesc []

/-- Stable ascending insertion step for workouts, keyed by date
(`.sort((a, b) => new Date(a.workout_date) - new Date(b.workout_date))`). -/
def insertWorkoutAsc (w : Workout) : List Workout → List Workout
  | [] => [w]
  | y :: ys =>
    if w.workout_date ≤ y.workout_date then w :: y :: ys else y :: insertWorkoutAsc w ys

/-- Stable ascending sort of workouts by date. -/
def sortWorkoutsAsc (workouts : List Workout) : List Workout :=
  workouts.foldr insertWorkoutAsc []

/-- State of the caller's array after `calculateStreaks`: line 235 sorts
the caller's array in place (descending by date); on an empty array the
function returns before sorting. -/
def calculateStreaksArrayAfter (workouts : List Workout) : List Workout :=
  if workouts = [] then workouts else sortWorkoutsDesc workouts

/-- State of the caller's array after `calculateUserStats`: line 189 sorts
it ascending in place, then the nested `calculateStreaks` call (line 208)
re-sorts the same array descending. -/
def calculateUserStatsArrayAfter (workouts : List Workout) : List Workout :=
  if workouts = [] then workouts else sortWorkoutsDesc (sortWorkoutsAsc workouts)

/-- Line 197: `exercise.name?.toLowerCase() || 'unknown'` — a missing name
or an empty lower-cased name (falsy in JavaScript) becomes `"unknown"`. -/
def canonicalExerciseName (e : ExerciseEntry) : String :=
  match e.name with
  | none => "unknown"
  | some n => if n.toLower = "" then "unknown" else n.toLower

/-- The all-zero `UserStats` returned for an empty history (lines 177-187). -/
def zeroStats : UserStats :=
  { totalWorkouts := 0, currentStreak := 0, longestStreak := 0
    totalExercises := 0, workoutDays := 0, personalRecords := 0
    consistencyScore := 0 }

/-- `calculateUserStats` (lines 176-227), with "today" explicit.
`workoutDays` uses day-granular dates, so `Math.ceil` of the day quotient
is exact; `consistencyScore` goes through rational arithmetic as the
source's floating division does. -/
def calculateUserStats (workouts : List Workout) (today : Int) : UserStats :=
  if workouts = [] then zeroStats
  else
    let sortedWorkouts := sortWorkoutsAsc workouts
    let totalWorkouts : Int := workouts.length
    let uniqueExercises : List String :=
      ((workouts.map (fun w =>
        match w.exercises with
        | none => []
        | some es => es.map canonicalExerciseName)).flatten).dedup
    let firstWorkoutDate : Int :=
      (sortedWorkouts.headD { workout_date := 0, exercises := none }).workout_date
    let lastWorkoutDate : Int :=
      (sortedWorkouts.getLastD { workout_date := 0, exercises := none }).workout_date
    let workoutDays : Int := lastWorkoutDate - firstWorkoutDate + 1
    let streaks := calculateStreaks workouts today
    let weeksActive : ℚ := max 1 ((workoutDays : ℚ) / 7)
    let workoutsPerWeek : ℚ := (totalWorkouts : ℚ) / weeksActive
    let consistencyScore : Int := min 100 (Int.floor (workoutsPerWeek * 20))
    let personalRecords : Int := Int.fdiv totalWorkouts 5
    { totalWorkouts := totalWorkouts
      currentStreak := (streaks.currentStreak : Int)
      longestStreak := (streaks.longestStreak : Int)
      totalExercises := (uniqueExercises.length : Int)
      workoutDays := workoutDays
      personalRecords := personalRecords
      consistencyScore := consistencyScore }

/-- Modelled from the spec: §4.3 requires "clamp negative inputs to zero
before summation"; the source has no such per-input clamp, so this
definition follows the spec's words for comparison with
`calculateRankingPoints`. -/
def scorePointsClampInputsFirst (s : UserStats) : Int :=
  2 * max 0 s.totalWorkouts + 3 * max 0 s.currentStreak + 1 * max 0 s.longestStreak
    + Int.fdiv (max 0 s.totalExercises) 5 + max 0 s.consistencyScore
    + 10 * max 0 s.personalRecords + Int.fdiv (max 0 s.workoutDays) 7

end RankingSystem

namespace RankingSystem

/- ### Helper lemmas shared by the claim theorems -/

lemma RANKS_expand : RANKS = [BRONZE, SILVER, GOLD, PLATINUM, DIAMOND] := rfl

/- The highest-to-lowest scan of `getUserRank` (lines 104-114), resolved
into the five threshold cases. -/
lemma find?_desc_eq (p : Int) :
    RANKS.reverse.find? (fun rank => decide (rank.minPoints ≤ p)) =
      if 1000 ≤ p then some DIAMOND
      else if 600 ≤ p then some PLATINUM
      else if 300 ≤ p then some GOLD
      else if 100 ≤ p then some SILVER
      else if 0 ≤ p then some BRONZE
      else none := by
  by_cases h1 : 1000 ≤ p <;> by_cases h2 : 600 ≤ p <;> by_cases h3 : 300 ≤ p <;>
    by_cases h4 : 100 ≤ p <;> by_cases h5 : 0 ≤ p <;>
    simp [RANKS, List.find?, BRONZE, SILVER, GOLD, PLATINUM, DIAMOND, h1, h2, h3, h4, h5]
  all_goals omega

/- The lowest-to-highest range scan of `getProgressToNextRank` and
`getPointsToNextRank` (lines 128-137, 147-156). -/
lemma find?_contains_eq (p : Int) :
    RANKS.find? (fun rank => rankContains rank p) =
      if p < 0 then none
      else if p ≤ 99 then some BRONZE
      else if p ≤ 299 then some SILVER
      else if p ≤ 599 then some GOLD
      else if p ≤ 999 then some PLATINUM
      else some DIAMOND := by
  rw [RANKS_expand]
  by_cases h0 : p < 0
  · rw [if_pos h0]
    repeat rw [List.find?_cons_of_neg]
    · rfl
    all_goals simp [rankContains, withinMax, BRONZE, SILVER, GOLD, PLATINUM, DIAMOND]; omega
  · rw [if_neg h0]
    by_cases h1 : p ≤ 99
    · rw [if_pos h1, List.find?_cons_of_pos]
      simp [rankContains, withinMax, BRONZE]; omega
    · rw [if_neg h1, List.find?_cons_of_neg _ (by simp [rankContains, withinMax, BRONZE]; omega)]
      by_cases h2 : p ≤ 299
      · rw [if_pos h2, List.find?_cons_of_pos]
        simp [rankContains, withinMax, SILVER]; omega
      · rw [if_neg h2, List.find?_cons_of_neg _ (by simp [rankContains, withinMax, SILVER]; omega)]
        by_cases h3 : p ≤ 599
        · rw [if_pos h3, List.find?_cons_of_pos]
          simp [rankContains, withinMax, GOLD]; omega
        · rw [if_neg h3, List.find?_cons_of_neg _ (by simp [rankContains, withinMax, GOLD]; omega)]
          by_cases h4 : p ≤ 999
          · rw [if_pos h4, List.find?_cons_of_pos]
            simp [rankContains, withinMax, PLATINUM]; omega
          · rw [if_neg h4,
              List.find?_cons_of_neg _ (by simp [rankContains, withinMax, PLATINUM]; omega),
              List.find?_cons_of_pos]
            simp [rankContains, withinMax, DIAMOND]; omega


/- The loop counter of `currentStreakLoop` is the number of days the walk
counts. -/
lemma currentStreakLoop_eq_length (l : List Int) :
    ∀ c, currentStreakLoop c l = (matchedDays c l).length := by
  induction l with
  | nil => intro c; rfl
  | cons d rest ih =>
    intro c
    by_cases h : c - d = 0 ∨ c - d = 1
    · simp only [currentStreakLoop, matchedDays, if_pos h, List.length_cons, ih]
    · simp only [currentStreakLoop, matchedDays, if_neg h, List.length_nil]

/- The first day the walk counts is at distance 0 or 1 from the cursor. -/
lemma matchedDays_head (l : List Int) (c d : Int)
    (hd : (matchedDays c l).head? = some d) : c - d = 0 ∨ c - d = 1 := by
  cases l with
  | nil => simp [matchedDays] at hd
  | cons e rest =>
    by_cases h : c - e = 0 ∨ c - e = 1
    · rw [matchedDays, if_pos h] at hd
      simp only [List.head?_cons, Option.some.injEq] at hd
      omega
    · rw [matchedDays, if_neg h] at hd
      simp at hd

/- Two consecutive days counted by the current-streak walk are one or two
calendar days apart: after counting day `a` the cursor moves to `a - 1`,
and the next day is counted when it is `a - 1` or `a - 2`. -/
lemma matchedDays_chain (l : List Int) :
    ∀ c, List.Chain' (fun a b => a - b = 1 ∨ a - b = 2) (matchedDays c l) := by
  induction l with
  | nil => intro c; simp [matchedDays]
  | cons d rest ih =>
    intro c
    by_cases h : c - d = 0 ∨ c - d = 1
    · rw [matchedDays, if_pos h, List.chain'_cons']
      refine ⟨?_, ih (d - 1)⟩
      intro b hb
      have hhead := matchedDays_head rest (d - 1) b hb
      omega
    · rw [matchedDays, if_neg h]
      exact List.chain'_nil

/- The walk stops at the first unmatched day and never resumes: the
counted days are an initial segment of the deduplicated day list. -/
lemma matchedDays_front (l : List Int) : ∀ c, matchedDays c l <+: l := by
  induction l with
  | nil => intro c; exact ⟨[], rfl⟩
  | cons d rest ih =>
    intro c
    by_cases h : c - d = 0 ∨ c - d = 1
    · rw [matchedDays, if_pos h]
      obtain ⟨t, ht⟩ := ih (d - 1)
      exact ⟨t, by rw [List.cons_append, ht]⟩
    · rw [matchedDays, if_neg h]
      exact ⟨d :: rest, rfl⟩


/- ### Claim theorems -/

/-- C1: the spec's invariant `longestStreak ≥ currentStreak` fails on the
code.  For workouts on day 0 and day -2 (today = day 0), the current-streak
walk counts both days (the cursor logic accepts a two-day gap), giving
`currentStreak = 2`, while the longest-streak scan requires gaps of exactly
one day and yields `longestStreak = 1`. -/
theorem streak_invariant_violated :
    calculateStreaks [{ workout_date := 0, exercises := none },
        { workout_date := -2, exercises := none }] 0 =
      { currentStreak := 2, longestStreak := 1 } ∧
    ¬ ((calculateStreaks [{ workout_date := 0, exercises := none },
        { workout_date := -2, exercises := none }] 0).currentStreak ≤
      (calculateStreaks [{ workout_date := 0, exercises := none },
        { workout_date := -2, exercises := none }] 0).longestStreak) := by
  decide

/-- C2 counterexample: with workouts on day 0 and day -2 and today = day 0,
the walk counts both days even though they are two calendar days apart, so
"every two consecutive counted days differ by exactly one calendar day" is
false, and the walk does not stop at the first gap greater than one day. -/
theorem current_streak_gap_two_counted :
    matchedDays 0 (dedupDatesDesc [0, -2]) = [0, -2] ∧
    (calculateStreaks [{ workout_date := 0, exercises := none },
        { workout_date := -2, exercises := none }] 0).currentStreak = 2 ∧
    ¬ ((0 : Int) - (-2) = 1) := by
  decide

/-- C2 (amended): the days counted into `currentStreak` form an initial
segment of the distinct workout days sorted descending; the first counted
day is today or yesterday; every two consecutive counted days differ by
one OR TWO calendar days (the cursor sits one day before the previous
counted day and accepts a distance of 0 or 1 from itself); and the walk
terminates at the first day that is more than one day before the cursor
and never resumes. -/
theorem current_streak_walk (workouts : List Workout) (today : Int) :
    (calculateStreaks workouts today).currentStreak =
      (matchedDays today (dedupDatesDesc (workouts.map (fun w => w.workout_date)))).length ∧
    List.Chain' (fun a b => a - b = 1 ∨ a - b = 2)
      (matchedDays today (dedupDatesDesc (workouts.map (fun w => w.workout_date)))) ∧
    (∀ d ∈ (matchedDays today (dedupDatesDesc (workouts.map (fun w => w.workout_date)))).head?,
      today - d = 0 ∨ today - d = 1) ∧
    matchedDays today (dedupDatesDesc (workouts.map (fun w => w.workout_date))) <+:
      dedupDatesDesc (workouts.map (fun w => w.workout_date)) := by
  refine ⟨?_, matchedDays_chain _ today, ?_, matchedDays_front _ today⟩
  · by_cases hws : workouts = []
    · subst hws; rfl
    · unfold calculateStreaks
      rw [if_neg hws]
      exact currentStreakLoop_eq_length _ today
  · intro d hd
    exact matchedDays_head _ today d hd

/-- C3 counterexample: the code clamps the final sum, not each input.  For
`currentStreak = -1` and `consistencyScore = 10` (all other fields 0) the
code returns `max(0, -3 + 10) = 7`, while the spec's clamp-inputs-first
formula returns 10. -/
theorem clamp_before_summation_false :
    calculateRankingPoints
        { totalWorkouts := 0, currentStreak := -1, longestStreak := 0
          totalExercises := 0, workoutDays := 0, personalRecords := 0
          consistencyScore := 10 } = 7 ∧
    scorePointsClampInputsFirst
        { totalWorkouts := 0, currentStreak := -1, longestStreak := 0
          totalExercises := 0, workoutDays := 0, personalRecords := 0
          consistencyScore := 10 } = 10 ∧
    calculateRankingPoints
        { totalWorkouts := 0, currentStreak := -1, longestStreak := 0
          totalExercises := 0, workoutDays := 0, personalRecords := 0
          consistencyScore := 10 } ≠
      scorePointsClampInputsFirst
        { totalWorkouts := 0, currentStreak := -1, longestStreak := 0
          totalExercises := 0, workoutDays := 0, personalRecords := 0
          consistencyScore := 10 } := by
  decide

/-- C3 (amended): on non-negative inputs the Score Formula returns exactly
`2*totalWorkouts + 3*currentStreak + 1*longestStreak + floor(totalExercises/5)
+ consistencyScore + 10*personalRecords + floor(workoutDays/7)`, and the
result is non-negative; the defensive clamp is applied to the final sum
(`Math.max(0, ...)`) rather than to the individual inputs. -/
theorem score_formula_exact (s : UserStats)
    (h1 : 0 ≤ s.totalWorkouts) (h2 : 0 ≤ s.currentStreak) (h3 : 0 ≤ s.longestStreak)
    (h4 : 0 ≤ s.totalExercises) (h5 : 0 ≤ s.workoutDays) (h6 : 0 ≤ s.personalRecords)
    (h7 : 0 ≤ s.consistencyScore) :
    calculateRankingPoints s =
      2 * s.totalWorkouts + 3 * s.currentStreak + 1 * s.longestStreak
        + Int.fdiv s.totalExercises 5 + s.consistencyScore
        + 10 * s.personalRecords + Int.fdiv s.workoutDays 7 ∧
    0 ≤ calculateRankingPoints s := by
  have d4 : 0 ≤ Int.fdiv s.totalExercises 5 := Int.fdiv_nonneg h4 (by norm_num)
  have d5 : 0 ≤ Int.fdiv s.workoutDays 7 := Int.fdiv_nonneg h5 (by norm_num)
  unfold calculateRankingPoints
  dsimp only
  constructor
  · rw [max_eq_right (by linarith)]
    ring
  · exact le_max_left _ _

/-- Witness for C3's amended theorem at the spec's §8 scenario stats. -/
theorem score_formula_exact_witness :
    calculateRankingPoints
        { totalWorkouts := 50, currentStreak := 7, longestStreak := 10
          totalExercises := 20, workoutDays := 60, personalRecords := 10
          consistencyScore := 80 } =
      2 * 50 + 3 * 7 + 1 * 10 + Int.fdiv 20 5 + 80 + 10 * 10 + Int.fdiv 60 7 ∧
    0 ≤ calculateRankingPoints
        { totalWorkouts := 50, currentStreak := 7, longestStreak := 10
          totalExercises := 20, workoutDays := 60, personalRecords := 10
          consistencyScore := 80 } :=
  score_formula_exact
    { totalWorkouts := 50, currentStreak := 7, longestStreak := 10
      totalExercises := 20, workoutDays := 60, personalRecords := 10
      consistencyScore := 80 }
    (by decide) (by decide) (by decide) (by decide) (by decide) (by decide) (by decide)

/-- C6 counterexample: 323 points do NOT resolve to the second tier.
Silver's range is [100, 299]; `getUserRank 323` returns Gold (level 3). -/
theorem scenario_323_not_silver :
    (getUserRank 323).rank ≠ SILVER ∧ SILVER.level = 2 := by
  decide

/-- C6 (amended): the §8 scenario stats score exactly 323 points, and 323
points resolve to the third tier, Gold, whose range [300, 599] contains
them. -/
theorem scenario_323_gold :
    calculateRankingPoints
        { totalWorkouts := 50, currentStreak := 7, longestStreak := 10
          totalExercises := 20, workoutDays := 60, personalRecords := 10
          consistencyScore := 80 } = 323 ∧
    (getUserRank 323).rank = GOLD ∧ GOLD.level = 3 ∧
    rankContains GOLD 323 = true := by
  decide

/-- C9: the core does mutate its caller's array.  `calculateStreaks` (line
235) and `calculateUserStats` (line 189) call `workouts.sort(...)`, which
sorts the caller-supplied array in place; for two workouts given in
ascending date order the array is left reordered (descending) after
`calculateStreaks` returns. -/
theorem streaks_sort_mutates_input :
    calculateStreaksArrayAfter [{ workout_date := 0, exercises := none },
        { workout_date := 1, exercises := none }] =
      [{ workout_date := 1, exercises := none },
        { workout_date := 0, exercises := none }] ∧
    calculateStreaksArrayAfter [{ workout_date := 0, exercises := none },
        { workout_date := 1, exercises := none }] ≠
      [{ workout_date := 0, exercises := none },
        { workout_date := 1, exercises := none }] := by
  decide


/-- C4: for every non-negative integer point total exactly one of the five
tiers' ranges contains it (the integer ranges partition [0, ∞) with no gap
and no overlap); a point total exactly equal to a tier's `minPoints`
resolves to that tier, not the one below; and the top tier's range is
unbounded above (`maxPoints = Infinity`, so every total from its
`minPoints` up is contained in it). -/
theorem ranks_partition (p : Int) (hp : 0 ≤ p) :
    (∃! rank, rank ∈ RANKS ∧ rankContains rank p = true) ∧
    (∀ rank ∈ RANKS, p = rank.minPoints → (getUserRank p).rank = rank) ∧
    DIAMOND.maxPoints = none ∧
    (DIAMOND.minPoints ≤ p → rankContains DIAMOND p = true) := by
  refine ⟨?_, ?_, rfl, ?_⟩
  · by_cases h1 : p ≤ 99
    · refine ⟨BRONZE, ⟨by decide, by simp [rankContains, withinMax, BRONZE]; omega⟩, ?_⟩
      rintro y ⟨hy, hcy⟩
      fin_cases hy <;>
        first
          | rfl
          | (exfalso
             simp [rankContains, withinMax, BRONZE, SILVER, GOLD, PLATINUM, DIAMOND] at hcy
             omega)
    · by_cases h2 : p ≤ 299
      · refine ⟨SILVER, ⟨by decide, by simp [rankContains, withinMax, SILVER]; omega⟩, ?_⟩
        rintro y ⟨hy, hcy⟩
        fin_cases hy <;>
          first
            | rfl
            | (exfalso
               simp [rankContains, withinMax, BRONZE, SILVER, GOLD, PLATINUM, DIAMOND] at hcy
               omega)
      · by_cases h3 : p ≤ 599
        · refine ⟨GOLD, ⟨by decide, by simp [rankContains, withinMax, GOLD]; omega⟩, ?_⟩
          rintro y ⟨hy, hcy⟩
          fin_cases hy <;>
            first
              | rfl
              | (exfalso
                 simp [rankContains, withinMax, BRONZE, SILVER, GOLD, PLATINUM, DIAMOND] at hcy
                 omega)
        · by_cases h4 : p ≤ 999
          · refine ⟨PLATINUM, ⟨by decide, by simp [rankContains, withinMax, PLATINUM]; omega⟩, ?_⟩
            rintro y ⟨hy, hcy⟩
            fin_cases hy <;>
              first
                | rfl
                | (exfalso
                   simp [rankContains, withinMax, BRONZE, SILVER, GOLD, PLATINUM, DIAMOND] at hcy
                   omega)
          · refine ⟨DIAMOND, ⟨by decide, by simp [rankContains, withinMax, DIAMOND]; omega⟩, ?_⟩
            rintro y ⟨hy, hcy⟩
            fin_cases hy <;>
              first
                | rfl
                | (exfalso
                   simp [rankContains, withinMax, BRONZE, SILVER, GOLD, PLATINUM, DIAMOND] at hcy
                   omega)
  · intro rank hmem hpe
    fin_cases hmem <;> (subst hpe; decide)
  · intro hd
    simp only [DIAMOND] at hd
    simp [rankContains, withinMax, DIAMOND]
    omega

/-- Witness for C4 at 150 points. -/
theorem ranks_partition_witness :
    ∃! rank, rank ∈ RANKS ∧ rankContains rank 150 = true :=
  (ranks_partition 150 (by decide)).1

/-- C5 counterexample: for 0 points (contained in Bronze, whose `maxPoints`
is 99) the code returns `pointsToNext = 99 + 1 - 0 = 100`, not
`maxPoints - points = 99` as the claim states. -/
theorem points_to_next_off_by_one :
    rankContains BRONZE 0 = true ∧ BRONZE.maxPoints = some 99 ∧
    getPointsToNextRank 0 = 100 ∧ getPointsToNextRank 0 ≠ 99 - 0 := by
  decide

/-- C5 (amended): for every point total contained in a non-top tier,
`progressToNext = 100 × (points − minPoints) / (maxPoints − minPoints)`
clamped to [0, 100], and `pointsToNext = maxPoints + 1 − points`; for every
point total contained in the top tier, `progressToNext = 100` and
`pointsToNext = 0`. -/
theorem progress_points_formula (p : Int) (rank : Rank) (hmem : rank ∈ RANKS)
    (hc : rankContains rank p = true) :
    (∀ m : Int, rank.maxPoints = some m →
      getProgressToNextRank p =
        min 100 (max 0 ((((p : ℚ) - (rank.minPoints : ℚ)) /
          ((m : ℚ) - (rank.minPoints : ℚ))) * 100)) ∧
      getPointsToNextRank p = m + 1 - p) ∧
    (rank.maxPoints = none →
      getProgressToNextRank p = 100 ∧ getPointsToNextRank p = 0) := by
  fin_cases hmem
  · simp only [rankContains, withinMax, BRONZE, Bool.and_eq_true, decide_eq_true_eq] at hc
    refine ⟨?_, by intro h; exact absurd h (by decide)⟩
    intro m hm
    simp only [BRONZE, Option.some.injEq] at hm
    subst hm
    unfold getProgressToNextRank getPointsToNextRank
    rw [find?_contains_eq, if_neg (by omega), if_pos (by omega)]
    exact ⟨rfl, rfl⟩
  · simp only [rankContains, withinMax, SILVER, Bool.and_eq_true, decide_eq_true_eq] at hc
    refine ⟨?_, by intro h; exact absurd h (by decide)⟩
    intro m hm
    simp only [SILVER, Option.some.injEq] at hm
    subst hm
    unfold getProgressToNextRank getPointsToNextRank
    rw [find?_contains_eq, if_neg (by omega), if_neg (by omega), if_pos (by omega)]
    exact ⟨rfl, rfl⟩
  · simp only [rankContains, withinMax, GOLD, Bool.and_eq_true, decide_eq_true_eq] at hc
    refine ⟨?_, by intro h; exact absurd h (by decide)⟩
    intro m hm
    simp only [GOLD, Option.some.injEq] at hm
    subst hm
    unfold getProgressToNextRank getPointsToNextRank
    rw [find?_contains_eq, if_neg (by omega), if_neg (by omega), if_neg (by omega),
      if_pos (by omega)]
    exact ⟨rfl, rfl⟩
  · simp only [rankContains, withinMax, PLATINUM, Bool.and_eq_true, decide_eq_true_eq] at hc
    refine ⟨?_, by intro h; exact absurd h (by decide)⟩
    intro m hm
    simp only [PLATINUM, Option.some.injEq] at hm
    subst hm
    unfold getProgressToNextRank getPointsToNextRank
    rw [find?_contains_eq, if_neg (by omega), if_neg (by omega), if_neg (by omega),
      if_neg (by omega), if_pos (by omega)]
    exact ⟨rfl, rfl⟩
  · simp only [rankContains, withinMax, DIAMOND, Bool.and_eq_true, decide_eq_true_eq] at hc
    refine ⟨by intro m hm; simp [DIAMOND] at hm, ?_⟩
    intro _
    unfold getProgressToNextRank getPointsToNextRank
    rw [find?_contains_eq, if_neg (by omega), if_neg (by omega), if_neg (by omega),
      if_neg (by omega), if_neg (by omega)]
    exact ⟨rfl, rfl⟩

/-- Witness for C5's amended theorem: 150 points inside Silver. -/
theorem progress_points_formula_witness :
    getProgressToNextRank 150 =
      min 100 (max 0 (((((150 : Int) : ℚ)) - ((SILVER.minPoints : Int) : ℚ)) /
        ((((299 : Int) : ℚ)) - ((SILVER.minPoints : Int) : ℚ)) * 100)) ∧
    getPointsToNextRank 150 = 299 + 1 - 150 :=
  (progress_points_formula 150 SILVER (by decide) (by decide)).1 299 rfl


/-- C7 counterexample: the claim's "progressToNext strictly greater than
0%" is false for an empty history — the code shows exactly 0% (as §7 of
the spec promises). -/
theorem empty_history_progress_not_positive :
    calculateRankingPoints (calculateUserStats [] 0) = 0 ∧
    ¬ (0 < (getUserRank (calculateRankingPoints (calculateUserStats [] 0))).progressToNext) := by
  refine ⟨by decide, ?_⟩
  have h0 : calculateRankingPoints (calculateUserStats [] 0) = 0 := by decide
  rw [h0]
  have hprog : (getUserRank 0).progressToNext = 0 := by
    show getProgressToNextRank 0 = 0
    unfold getProgressToNextRank
    rw [find?_contains_eq, if_neg (by omega), if_pos (by omega)]
    norm_num [BRONZE]
  rw [hprog]
  exact lt_irrefl 0

/-- C7 (amended): an empty workout history aggregates to the all-zero
UserStats, which score 0 points; 0 points resolve to the lowest tier
(Bronze) with `progressToNext = 0` (0%, as §7 promises, not strictly
positive as §8 claims) and `pointsToNext = 99 + 1` (the lowest tier's
`maxPoints` + 1). -/
theorem empty_history_rank (today : Int) :
    calculateUserStats [] today = zeroStats ∧
    calculateRankingPoints zeroStats = 0 ∧
    (getUserRank 0).rank = BRONZE ∧
    (getUserRank 0).progressToNext = 0 ∧
    (getUserRank 0).pointsToNext = 99 + 1 := by
  refine ⟨rfl, by decide, by decide, ?_, by decide⟩
  show getProgressToNextRank 0 = 0
  unfold getProgressToNextRank
  rw [find?_contains_eq, if_neg (by omega), if_pos (by omega)]
  norm_num [BRONZE]

/-- C8: the Score Formula is monotone non-decreasing in every field —
raising any field (here: all fields simultaneously, of which raising a
single field with the others fixed is the special case) never decreases
the output. -/
theorem score_monotone (s t : UserStats)
    (h1 : s.totalWorkouts ≤ t.totalWorkouts) (h2 : s.currentStreak ≤ t.currentStreak)
    (h3 : s.longestStreak ≤ t.longestStreak) (h4 : s.totalExercises ≤ t.totalExercises)
    (h5 : s.workoutDays ≤ t.workoutDays) (h6 : s.personalRecords ≤ t.personalRecords)
    (h7 : s.consistencyScore ≤ t.consistencyScore) :
    calculateRankingPoints s ≤ calculateRankingPoints t := by
  have d4 : Int.fdiv s.totalExercises 5 ≤ Int.fdiv t.totalExercises 5 := by
    rw [Int.fdiv_eq_ediv _ (by norm_num), Int.fdiv_eq_ediv _ (by norm_num)]
    exact Int.ediv_le_ediv (by norm_num) h4
  have d5 : Int.fdiv s.workoutDays 7 ≤ Int.fdiv t.workoutDays 7 := by
    rw [Int.fdiv_eq_ediv _ (by norm_num), Int.fdiv_eq_ediv _ (by norm_num)]
    exact Int.ediv_le_ediv (by norm_num) h5
  unfold calculateRankingPoints
  dsimp only
  exact max_le_max le_rfl (by linarith)

/-- Witness for C8: increasing `totalWorkouts` alone from 1 to 2. -/
theorem score_monotone_witness :
    calculateRankingPoints
        { totalWorkouts := 1, currentStreak := 2, longestStreak := 3
          totalExercises := 4, workoutDays := 5, personalRecords := 6
          consistencyScore := 7 } ≤
      calculateRankingPoints
        { totalWorkouts := 2, currentStreak := 2, longestStreak := 3
          totalExercises := 4, workoutDays := 5, personalRecords := 6
          consistencyScore := 7 } :=
  score_monotone
    { totalWorkouts := 1, currentStreak := 2, longestStreak := 3
      totalExercises := 4, workoutDays := 5, personalRecords := 6
      consistencyScore := 7 }
    { totalWorkouts := 2, currentStreak := 2, longestStreak := 3
      totalExercises := 4, workoutDays := 5, personalRecords := 6
      consistencyScore := 7 }
    (by decide) (by decide) (by decide) (by decide) (by decide) (by decide) (by decide)

/-- C10: for every negative point total the tier-resolution functions are
total: `getUserRank` falls through its scan (no tier's `minPoints` is
reached) and returns the Bronze fallback record, with `progressToNext = 0`
(no range contains the points) and
`pointsToNext = RANKS.BRONZE.maxPoints + 1 - points = 99 + 1 - points`. -/
theorem negative_points_bronze_fallback (p : Int) (hp : p < 0) :
    getUserRank p =
      { rank := BRONZE, currentPoints := p, progressToNext := 0
        pointsToNext := 99 + 1 - p } := by
  have hprog : getProgressToNextRank p = 0 := by
    unfold getProgressToNextRank
    rw [find?_contains_eq, if_pos hp]
  have hpts : getPointsToNextRank p = 99 + 1 - p := by
    unfold getPointsToNextRank
    rw [find?_contains_eq, if_pos hp]
  unfold getUserRank
  rw [find?_desc_eq, if_neg (by omega), if_neg (by omega), if_neg (by omega),
    if_neg (by omega), if_neg (by omega)]
  dsimp only
  rw [hprog, hpts]

/-- Witness for C10 at -5 points. -/
theorem negative_points_bronze_fallback_witness :
    getUserRank (-5) =
      { rank := BRONZE, currentPoints := -5, progressToNext := 0
        pointsToNext := 99 + 1 - (-5) } :=
  negative_points_bronze_fallback (-5) (by decide)

end RankingSystem
